import Mathlib

/-!
Shallow embedding of the Kenaz analytics backend (`server.py`) and proofs
about its deterministic core: the bottleneck classifier, the ROAS
derivation, the hash-seeded suggestion selector, the language extractor
and the product categorizer.

Python floats are modelled as `ℚ`, Python ints as `Int`/`Nat`, Python
strings as `String`, optional fields as `Option`.  Machine 32-bit
arithmetic (inside SHA-256 and the Mersenne Twister) is `Nat` with
explicit `% 2^32`.
-/

namespace Kenaz

/-! ## Python string primitives -/

/-- Model of Python's `needle in hay` substring test, on character lists. -/
def isSubChars (nd : List Char) : List Char → Bool
  | [] => nd.isEmpty
  | c :: rest => nd.isPrefixOf (c :: rest) || isSubChars nd rest

/-- Python's `needle in hay` for strings. -/
def pyIn (needle hay : String) : Bool :=
  isSubChars needle.data hay.data

/-- Python's `str.lower()`, modelled on the ASCII range (all inputs in the
source's keyword tables are ASCII). -/
def pyLower (s : String) : String :=
  ⟨s.data.map Char.toLower⟩

/-- Whitespace characters stripped by Python's `str.strip()` (ASCII range). -/
def isPySpace (c : Char) : Bool :=
  c = ' ' || c = '\t' || c = '\n' || c = '\r' || c.toNat = 11 || c.toNat = 12

/-- Python's `str.strip()`: drop leading and trailing whitespace. -/
def pyStrip (s : String) : String :=
  ⟨((s.data.dropWhile isPySpace).reverse.dropWhile isPySpace).reverse⟩

/-- Python's `s.split(":")[0]`: the portion of `s` before the first `':'`
(the whole string when there is no colon). -/
def beforeColon (s : String) : String :=
  ⟨s.data.takeWhile (fun c => c ≠ ':')⟩

/-! ## `categorize_product` (server.py lines 414-473)

The `product_mapping` argument of the Python function is never read, so the
model takes only the product name.  The `except` branch is unreachable in
the typed model (no dynamic type errors), mirroring that the `try` body is
total on strings. -/

structure CategorizationResult where
  new_product_name : String
  category : String
  subcategory : String
  reasoning : String
  deriving Repr, DecidableEq

def categorize_product (new_product : String) : CategorizationResult :=
  let s := pyLower new_product
  let category :=
    if pyIn "edp" s || pyIn "eau de parfum" s || pyIn "perfume" s then
      "Perfumes - Eau de Parfum"
    else if pyIn "edt" s || pyIn "eau de toilette" s then
      "Perfumes - Eau de Toilette"
    else if pyIn "oil" s && pyIn "perfume" s then
      "Perfumes - Perfume Oil"
    else if pyIn "mist" s || pyIn "body mist" s then
      "Body Care - Body Mist"
    else if pyIn "deo" s || pyIn "deodorant" s then
      "Body Care - Deodorant"
    else if pyIn "set" s || pyIn "combo" s || pyIn "kit" s || pyIn "bundle" s then
      "Gift Sets"
    else
      "Perfumes - General"
  let target :=
    if pyIn "men" s || pyIn "male" s then ["Men"]
    else if pyIn "women" s || pyIn "female" s then ["Women"]
    else ["Unisex"]
  let note :=
    if pyIn "oud" s || pyIn "woody" s || pyIn "sandalwood" s then ["Woody"]
    else if pyIn "rose" s || pyIn "jasmine" s || pyIn "floral" s then ["Floral"]
    else if pyIn "citrus" s || pyIn "lemon" s || pyIn "orange" s then ["Citrus"]
    else []
  let size :=
    if pyIn "100ml" s then ["100ml"]
    else if pyIn "50ml" s then ["50ml"]
    else if pyIn "30ml" s then ["30ml"]
    else []
  let subcategory_parts := target ++ note ++ size
  let subcategory :=
    if subcategory_parts.isEmpty then "Standard"
    else String.intercalate ", " subcategory_parts
  { new_product_name := new_product
    category := category
    subcategory := subcategory
    reasoning := "Classified based on product name keywords and structure" }

/-- True iff none of the subcategory keywords of `categorize_product`
(target-audience, scent-note or size) occurs in the lowered product name. -/
def noSubcatKeyword (new_product : String) : Bool :=
  let s := pyLower new_product
  !(pyIn "men" s || pyIn "male" s || pyIn "women" s || pyIn "female" s ||
    pyIn "oud" s || pyIn "woody" s || pyIn "sandalwood" s ||
    pyIn "rose" s || pyIn "jasmine" s || pyIn "floral" s ||
    pyIn "citrus" s || pyIn "lemon" s || pyIn "orange" s ||
    pyIn "100ml" s || pyIn "50ml" s || pyIn "30ml" s)

/-! ## `extract_language_from_analysis` (server.py lines 386-411)

The two fields of interest are each either absent, a string, or a list of
strings; `dict.get(key, "NA")` supplies the string `"NA"` when absent.
The `except` branch is unreachable in the typed model. -/

inductive PyStrField where
  | str (s : String)
  | list (l : List String)
  deriving Repr, DecidableEq

structure VideoAnalysis where
  speech_spoken : Option PyStrField := none
  written_text_on_screen : Option PyStrField := none

structure LanguageResult where
  spoken_language : String
  written_language : String
  deriving Repr, DecidableEq

/-- One axis of the extractor: nonempty list → first element before the
first colon, stripped; string not containing the sentinel fragment → the
string itself; anything else → `"NA"`. -/
def extractAxis (v : PyStrField) (sentinelFragment : String) : String :=
  match v with
  | .list (x :: _) => pyStrip (beforeColon x)
  | .list [] => "NA"
  | .str s => if pyIn sentinelFragment s then "NA" else s

def extract_language_from_analysis (va : VideoAnalysis) : LanguageResult :=
  let speech_data := va.speech_spoken.getD (.str "NA")
  let text_data := va.written_text_on_screen.getD (.str "NA")
  { spoken_language := extractAxis speech_data "No discernible"
    written_language := extractAxis text_data "No significant" }

/-! ## `round2`, ROAS derivation (server.py lines 246-251 and 267-271)

Python's `round(x, 2)` rounds half to even.  `round2`'s `except` branch
(non-numeric input) is unreachable in the typed model. -/

/-- Round a rational to the nearest integer, ties to even
(Python's `round` on an exact value). -/
def roundHalfEven (q : ℚ) : ℤ :=
  let f := ⌊q⌋
  if q - f < 1/2 then f
  else if 1/2 < q - f then f + 1
  else if f % 2 = 0 then f else f + 1

/-- Python's `round(x, 2)`. -/
def pyRound2 (q : ℚ) : ℚ :=
  (roundHalfEven (q * 100) : ℚ) / 100

/-- Model of `round2` of server.py: round to 2 decimals (coercion failure cannot
occur on `ℚ`). -/
def round2 (q : ℚ) : ℚ := pyRound2 q

/-- The `calculate_roas` pydantic validator of `AdPayload`: `v` is the
supplied `roas` field, `spend` and `revenue` were validated before it (so
`'spend' in values` always holds for a well-formed payload). -/
def calculate_roas (v : Option ℚ) (spend revenue : ℚ) : ℚ :=
  match v with
  | none => if spend > 0 then pyRound2 (revenue / spend) else 0
  | some x => if x = 0 then 0 else x

/-! ## `AdPayload`, `build_diagnostics`, `identify_primary_bottleneck`
(server.py lines 224-251, 289-321) -/

structure AdPayload where
  ad_name : String
  product : Option String := none
  platform : Option String := none
  spend : ℚ := 0
  revenue : ℚ := 0
  roas : Option ℚ := none
  ctr : ℚ := 0
  cpc : ℚ := 0
  hook_rate : ℚ := 0
  hold_rate : ℚ := 0
  completion_rate : ℚ := 0
  impressions : Option Int := none
  clicks : Option Int := none
  purchases : Option Int := none

/-- The `roas` value after pydantic validation ran `calculate_roas`. -/
def validatedRoas (p : AdPayload) : ℚ :=
  calculate_roas p.roas p.spend p.revenue

structure Diagnostics where
  spend : ℚ
  revenue : ℚ
  roas : ℚ
  impressions : Int
  clicks : Int
  purchases : Int
  ctr_pct : ℚ
  cpc : ℚ
  hook_rate_pct : ℚ
  hold_rate_pct : ℚ
  completion_rate_pct : ℚ
  deriving Repr, DecidableEq

def build_diagnostics (p : AdPayload) : Diagnostics :=
  { spend := round2 p.spend
    revenue := round2 p.revenue
    roas := round2 (validatedRoas p)
    impressions := p.impressions.getD 0
    clicks := p.clicks.getD 0
    purchases := p.purchases.getD 0
    ctr_pct := round2 p.ctr
    cpc := round2 p.cpc
    hook_rate_pct := round2 p.hook_rate
    hold_rate_pct := round2 p.hold_rate
    completion_rate_pct := round2 p.completion_rate }

/-- Label returned by rule 1 of the bottleneck classifier. -/
def bottleneckLabel1 : String :=
  "Critical viewer retention issue — very low hold and completion rates indicate viewers drop off quickly before conversion. Prioritize engaging content in the first 5-10 seconds and mid-video storytelling."

/-- Label returned by rule 2 of the bottleneck classifier. -/
def bottleneckLabel2 : String :=
  "Weak initial hook — low hook rate and CTR suggest the opening frame/first 3 seconds aren\x27t compelling enough. Test stronger visual hooks, clearer value propositions, and improved thumbnails."

/-- Label returned by rule 3 of the bottleneck classifier. -/
def bottleneckLabel3 : String :=
  "Conversion bottleneck — decent traffic but poor ROAS indicates landing page or offer misalignment. Review product-message fit, landing page load speed, checkout friction, and pricing clarity."

/-- Label returned by rule 4 of the bottleneck classifier. -/
def bottleneckLabel4 : String :=
  "Traffic generation challenge — low CTR suggests the ad isn\x27t resonating with the target audience. Test different audience segments, creative formats, and messaging angles."

/-- Label returned by rule 5 of the bottleneck classifier. -/
def bottleneckLabel5 : String :=
  "Moderate performance — ROAS is positive but has optimization potential. Focus on incremental improvements: creative iteration, audience refinement, and funnel optimization."

/-- Label returned by rule 6 of the bottleneck classifier. -/
def bottleneckLabel6 : String :=
  "Strong baseline performance — ad shows healthy metrics across the funnel. Focus on scaling winning elements, testing new creative variations, and exploring expansion audiences."

def identify_primary_bottleneck (diag : Diagnostics) : String :=
  if diag.hold_rate_pct < 6 ∧ diag.completion_rate_pct < 5 then
    bottleneckLabel1
  else if diag.hook_rate_pct < 50 ∧ diag.ctr_pct < 0.5 then
    bottleneckLabel2
  else if diag.roas < 1 ∧ diag.clicks > 50 then
    bottleneckLabel3
  else if diag.ctr_pct < 0.5 then
    bottleneckLabel4
  else if diag.roas ≥ 1 ∧ diag.roas < 2.5 then
    bottleneckLabel5
  else
    bottleneckLabel6

/-! ## SHA-256 (the `hashlib.sha256` call of `seed_from_text`,
server.py lines 274-276)

Faithful FIPS 180-4 implementation over byte lists; 32-bit words are `Nat`
reduced `% 2^32`. -/

/-- Reduce to a 32-bit word. -/
def m32 (x : Nat) : Nat := x % 4294967296

/-- Right rotation within 32 bits. -/
def rotr (x n : Nat) : Nat := m32 ((x >>> n) ||| (x <<< (32 - n)))

/-- The 64 SHA-256 round constants. -/
def shaK : List Nat :=
  [1116352408, 1899447441, 3049323471, 3921009573, 961987163,
   1508970993, 2453635748, 2870763221, 3624381080, 310598401,
   607225278, 1426881987, 1925078388, 2162078206, 2614888103,
   3248222580, 3835390401, 4022224774, 264347078, 604807628,
   770255983, 1249150122, 1555081692, 1996064986, 2554220882,
   2821834349, 2952996808, 3210313671, 3336571891, 3584528711,
   113926993, 338241895, 666307205, 773529912, 1294757372,
   1396182291, 1695183700, 1986661051, 2177026350, 2456956037,
   2730485921, 2820302411, 3259730800, 3345764771, 3516065817,
   3600352804, 4094571909, 275423344, 430227734, 506948616,
   659060556, 883997877, 958139571, 1322822218, 1537002063,
   1747873779, 1955562222, 2024104815, 2227730452, 2361852424,
   2428436474, 2756734187, 3204031479, 3329325298]

/-- The initial SHA-256 hash state. -/
def shaInit : List Nat :=
  [1779033703, 3144134277, 1013904242, 2773480762,
   1359893119, 2600822924, 528734635, 1541459225]

/-- Split a list into chunks of `k` elements (fuelled; fuel = list length
suffices for `k ≥ 1`). -/
def chunksAux (k : Nat) : Nat → List Nat → List (List Nat)
  | 0, _ => []
  | _, [] => []
  | f+1, l => l.take k :: chunksAux k f (l.drop k)

def chunks (k : Nat) (l : List Nat) : List (List Nat) := chunksAux k l.length l

/-- Big-endian word from a byte list. -/
def wordBE (b : List Nat) : Nat := b.foldl (fun a c => a * 256 + c) 0

/-- Big-endian encoding of `v mod 2^(8n)` on `n` bytes. -/
def toBytesBE : Nat → Nat → List Nat
  | 0, _ => []
  | m+1, v => toBytesBE m (v / 256) ++ [v % 256]

/-- SHA-256 message schedule: 16 block words extended to 64. -/
def shaSchedule (ws : List Nat) : Array Nat :=
  (List.range 48).foldl (fun w i =>
    let t := i + 16
    let x0 := w.getD (t - 15) 0
    let s0 := (rotr x0 7) ^^^ (rotr x0 18) ^^^ (x0 >>> 3)
    let x1 := w.getD (t - 2) 0
    let s1 := (rotr x1 17) ^^^ (rotr x1 19) ^^^ (x1 >>> 10)
    w.push (m32 (w.getD (t - 16) 0 + s0 + w.getD (t - 7) 0 + s1))) ws.toArray

/-- One SHA-256 compression round over the 8-word working state. -/
def shaRound (w : Array Nat) (st : List Nat) (i : Nat) : List Nat :=
  match st with
  | [a, b, c, d, e, f, g, h] =>
    let S1 := (rotr e 6) ^^^ (rotr e 11) ^^^ (rotr e 25)
    let ch := (e &&& f) ^^^ ((e ^^^ 4294967295) &&& g)
    let temp1 := m32 (h + S1 + ch + shaK.getD i 0 + w.getD i 0)
    let S0 := (rotr a 2) ^^^ (rotr a 13) ^^^ (rotr a 22)
    let maj := (a &&& b) ^^^ (a &&& c) ^^^ (b &&& c)
    let temp2 := m32 (S0 + maj)
    [m32 (temp1 + temp2), a, b, c, m32 (d + temp1), e, f, g]
  | other => other

/-- Compress one 64-byte block into the hash state. -/
def shaCompress (h : List Nat) (block : List Nat) : List Nat :=
  let w := shaSchedule ((chunks 4 block).map wordBE)
  let fin := (List.range 64).foldl (shaRound w) h
  List.zipWith (fun x y => m32 (x + y)) h fin

/-- SHA-256 of a byte list, as the 8 big-endian hash words. -/
def sha256Words (msg : List Nat) : List Nat :=
  let L := msg.length
  let z := (119 - L % 64) % 64
  let padded := msg ++ [128] ++ List.replicate z 0 ++ toBytesBE 8 (8 * L)
  (chunks 64 padded).foldl shaCompress shaInit

/-- UTF-8 encoding of a code point (surrogates excluded by `Char`). -/
def utf8Char (n : Nat) : List Nat :=
  if n < 128 then [n]
  else if n < 2048 then [192 + n / 64, 128 + n % 64]
  else if n < 65536 then [224 + n / 4096, 128 + (n / 64) % 64, 128 + n % 64]
  else [240 + n / 262144, 128 + (n / 4096) % 64, 128 + (n / 64) % 64, 128 + n % 64]

/-- Model of `s.encode("utf-8")` as a byte list. -/
def strBytes (s : String) : List Nat :=
  (s.data.map (fun c => utf8Char c.toNat)).flatten

/-- Model of `seed_from_text` of server.py: the first 16 hex digits of the SHA-256
hexdigest, read base 16 — i.e. the first two big-endian hash words. -/
def seed_from_text (s : String) : Nat :=
  let hw := sha256Words (strBytes s)
  (hw.getD 0 0) * 4294967296 + hw.getD 1 0

/-! ## Mersenne Twister (`random.Random(seed)` / `r.shuffle`,
server.py lines 279-284)

Faithful model of CPython's `_randommodule.c` (MT19937 seeded via
`init_by_array` on the little-endian 32-bit words of the seed) and of
`random.Random.shuffle` / `_randbelow_with_getrandbits`.  CPython's
rejection-sampling loop in `_randbelow` is unbounded; here it carries
fuel 10000, which no realistic stream exhausts (each draw accepts with
probability > 1/2); the fallback value 0 is still below the bound. -/

structure MTState where
  mt : Array Nat
  index : Nat

/-- Little-endian 32-bit words of a seed, at least one word
(CPython `random_seed`). -/
def natToWordsAux : Nat → Nat → List Nat
  | 0, _ => []
  | f+1, n => if n = 0 then [] else n % 4294967296 :: natToWordsAux f (n / 4294967296)

def natToKey (n : Nat) : List Nat :=
  if n = 0 then [0] else natToWordsAux (n + 1) n

/-- MT19937 `init_genrand`. -/
def init_genrand (s : Nat) : Array Nat :=
  (List.range 623).foldl (fun mt i =>
    let prev := mt.getD i 0
    mt.push ((1812433253 * (prev ^^^ (prev >>> 30)) + (i + 1)) % 4294967296))
    #[s % 4294967296]

/-- First loop of MT19937 `init_by_array`; returns the final index `i`
together with the state (the second loop continues from that index). -/
def ibaLoop1 (key : List Nat) (klen : Nat) : Nat → Nat → Nat → Array Nat → Nat × Array Nat
  | 0, i, _, mt => (i, mt)
  | c+1, i, j, mt =>
    let prev := mt.getD (i - 1) 0
    let x := (mt.getD i 0) ^^^ (((prev ^^^ (prev >>> 30)) * 1664525) % 4294967296)
    let mt := mt.setD i ((x + key.getD j 0 + j) % 4294967296)
    let i' := i + 1
    let j' := j + 1
    let p := if i' ≥ 624 then (1, mt.setD 0 (mt.getD 623 0)) else (i', mt)
    ibaLoop1 key klen c p.1 (if j' ≥ klen then 0 else j') p.2

/-- Second loop of MT19937 `init_by_array`. -/
def ibaLoop2 : Nat → Nat → Array Nat → Array Nat
  | 0, _, mt => mt
  | c+1, i, mt =>
    let prev := mt.getD (i - 1) 0
    let x := (mt.getD i 0) ^^^ (((prev ^^^ (prev >>> 30)) * 1566083941) % 4294967296)
    let mt := mt.setD i ((x % 4294967296 + 4294967296 - i) % 4294967296)
    let i' := i + 1
    let p := if i' ≥ 624 then (1, mt.setD 0 (mt.getD 623 0)) else (i', mt)
    ibaLoop2 c p.1 p.2

/-- MT19937 `init_by_array`. -/
def init_by_array (key : List Nat) : Array Nat :=
  let mt := init_genrand 19650218
  let k := max 624 key.length
  let p := ibaLoop1 key key.length k 1 0 mt
  let mt := ibaLoop2 623 p.1 p.2
  mt.setD 0 2147483648

/-- The state after `random.Random(seed)`: seeded, with the index at 624 so
the first draw twists. -/
def mtInit (seed : Nat) : MTState :=
  { mt := init_by_array (natToKey seed), index := 624 }

/-- The MT19937 twist, as the sequential in-place update of the 624 words. -/
def twist (mt : Array Nat) : Array Nat :=
  (List.range 624).foldl (fun m i =>
    let y := ((m.getD i 0) &&& 2147483648) ||| ((m.getD ((i + 1) % 624) 0) &&& 2147483647)
    m.setD i ((m.getD ((i + 397) % 624) 0) ^^^ (y >>> 1) ^^^
      (if y % 2 = 1 then 2567483615 else 0))) mt

/-- Model of `genrand_uint32`: twist when exhausted, then temper the next word. -/
def genrand (st : MTState) : Nat × MTState :=
  let st := if st.index ≥ 624 then { mt := twist st.mt, index := 0 } else st
  let y := st.mt.getD st.index 0
  let y := y ^^^ (y >>> 11)
  let y := y ^^^ ((y <<< 7) &&& 2636928640)
  let y := y ^^^ ((y <<< 15) &&& 4022730752)
  let y := y ^^^ (y >>> 18)
  (y, { st with index := st.index + 1 })

/-- Model of `getrandbits(k)` for `1 ≤ k ≤ 32`: the top `k` bits of one draw. -/
def getrandbits (st : MTState) (k : Nat) : Nat × MTState :=
  let p := genrand st
  (p.1 >>> (32 - k), p.2)

/-- Model of `n.bit_length()` (fuelled; fuel `n` suffices). -/
def bitLenAux : Nat → Nat → Nat
  | 0, _ => 0
  | f+1, n => if n = 0 then 0 else bitLenAux f (n / 2) + 1

def pyBitLength (n : Nat) : Nat := bitLenAux n n

/-- Rejection loop of `_randbelow_with_getrandbits`. -/
def randbelowAux (n k : Nat) : Nat → MTState → Nat × MTState
  | 0, st => (0, st)
  | f+1, st =>
    let p := getrandbits st k
    if p.1 < n then p else randbelowAux n k f p.2

/-- Model of `Random._randbelow(n)`. -/
def randbelow (st : MTState) (n : Nat) : Nat × MTState :=
  if n = 0 then (0, st) else randbelowAux n (pyBitLength n) 10000 st

/-- The simultaneous assignment `x[i], x[j] = x[j], x[i]`. -/
def swapL (l : List String) (i j : Nat) : List String :=
  let a := l.getD i ""
  let b := l.getD j ""
  (l.set i b).set j a

/-- Model of `random.Random.shuffle`: for `i` from `len-1` down to `1`, swap `x[i]`
with `x[_randbelow(i+1)]`.  The first argument is the current index `i`. -/
def shuffleAux : Nat → MTState → List String → List String × MTState
  | 0, st, l => (l, st)
  | i+1, st, l =>
    let p := randbelow st (i + 2)
    shuffleAux i p.2 (swapL l (i + 1) p.1)

def pyShuffle (st : MTState) (l : List String) : List String :=
  (shuffleAux (l.length - 1) st l).1

/-- Model of `pick_deterministic` of server.py: shuffle a copy of `options` with
`random.Random(seed)` and return the first `min(k, len)` elements.  The
Python `k` is an `int`; `Nat` models it on the claimed domain `k ≥ 0`
(Python's negative-`k` slicing is outside every claim). -/
def pick_deterministic (seed : Nat) (options : List String) (k : Nat := 4) : List String :=
  let shuffled := pyShuffle (mtInit seed) options
  shuffled.take (min k shuffled.length)

/-! ## Suggestion catalog and context annotation
(server.py lines 324-336 and 339-381) -/

/-- Model of `generate_perfume_specific_suggestions`: the fixed 10-entry catalog. -/
def generate_perfume_specific_suggestions : List String :=
  ["Test sensory-rich language in copy: emphasize notes (e.g., \x27warm amber,\x27 \x27crisp citrus,\x27 \x27deep oud\x27) to create olfactory imagination and emotional connection with the fragrance.",
   "Add short 2-3 second testimonial clips or user reaction shots (genuine surprise/delight expressions) to build social proof and convey the \x27experience\x27 of wearing the perfume.",
   "Create A/B test with lifestyle context: show the perfume in aspirational moments (date night, office confidence, evening out) vs. product-only shots to see which drives higher engagement.",
   "For Instagram Reels: front-load the bottle reveal within the first 2 seconds with dramatic lighting or slow-motion pour to capture attention before the algorithm decides to show your ad.",
   "Test urgency messaging for limited editions or seasonal scents: \x27Only 200 bottles left\x27 or \x27Summer collection ending soon\x27 can drive immediate action for premium perfumes.",
   "Leverage ASMR-style sound: include the \x27click\x27 of the bottle cap, spray sound, or subtle ambient music that complements the fragrance personality (elegant piano for floral, upbeat for citrus).",
   "Segment by occasion: run separate campaigns for \x27everyday confidence\x27 vs. \x27special occasion luxury\x27 with different creative angles and budget allocations based on performance.",
   "Include ingredient storytelling: if using premium/rare ingredients (saffron, rose absolute, jasmine sambac), highlight the craftsmanship to justify premium pricing and differentiate from mass-market options.",
   "Test influencer partnership clips: 2-3 second genuine reaction from a micro-influencer in your niche (fashion, lifestyle) can boost credibility and expand reach through their audience.",
   "Move CTA to the 60-70% mark instead of end-screen: viewers who watch past halfway are highly engaged; prompt them before they naturally drop off to maximize conversion capture."]

/-- Python truthiness of an optional string field (`if payload.product:`):
`None` and `""` are falsy. -/
def pyTruthy : Option String → Bool
  | none => false
  | some s => !(s == "")

/-- The `context_parts` list built at server.py lines 367-371. -/
def contextParts (product platform : Option String) : List String :=
  (if pyTruthy product then ["Product: " ++ product.getD ""] else []) ++
  (if pyTruthy platform then ["Platform: " ++ platform.getD ""] else [])

/-- The in-place update `selected_suggestions[0] = f"... [Context: ...]"`
guarded by `if context_parts:` (lines 373-374).  `List.set` is a no-op on
an out-of-range index; the Python code would raise there, but the list it
is applied to always has 5 elements. -/
def annotateFirst (ctx : List String) (l : List String) : List String :=
  if ctx.isEmpty then l
  else l.set 0 ((l.getD 0 "") ++ " [Context: " ++ String.intercalate ", " ctx ++ "]")

/-- Model of `selected_suggestions` of `build_insight_and_suggestions`
(server.py lines 363-365): 5 entries picked from the catalog, seeded by
the ad name. -/
def selected_suggestions (p : AdPayload) : List String :=
  pick_deterministic (seed_from_text p.ad_name) generate_perfume_specific_suggestions 5

/-- The `suggestions` component of `build_insight_and_suggestions`
(server.py lines 363-374): deterministic selection of 5 catalog entries
seeded by the ad name, then the context annotation on the first one.  The
insight narrative and the timestamp of the result dict are outside every
claim. -/
def build_insight_suggestions (p : AdPayload) : List String :=
  annotateFirst (contextParts p.product p.platform) (selected_suggestions p)


/-! ## Permutation and length lemmas for the shuffle -/

theorem swapL_length (l : List String) (i j : Nat) : (swapL l i j).length = l.length := by
  simp [swapL]

theorem count_set_getD (l : List String) (i : Nat) (hi : i < l.length) (a x : String) :
    (l.set i a).count x + (if x = l.getD i "" then 1 else 0) =
      l.count x + (if x = a then 1 else 0) := by
  have flip : ∀ u v : String, (if u = v then (1:Nat) else 0) = (if v = u then 1 else 0) := by
    intro u v
    by_cases h : u = v
    · subst h; rfl
    · rw [if_neg h, if_neg (fun hh => h hh.symm)]
  induction l generalizing i with
  | nil => simp at hi
  | cons c t ih =>
    cases i with
    | zero =>
      simp only [List.set_cons_zero, List.count_cons, List.getD_cons_zero, beq_iff_eq]
      rw [flip a x, flip c x]
      omega
    | succ n =>
      have hn : n < t.length := by simpa using hi
      simp only [List.set_cons_succ, List.count_cons, List.getD_cons_succ, beq_iff_eq]
      have key := ih n hn
      omega

theorem getD_set_self (l : List String) (i : Nat) (hi : i < l.length) (a : String) :
    (l.set i a).getD i "" = a := by
  simp [List.getD, List.getElem?_set_self (by simpa using hi)]

theorem getD_set_ne (l : List String) (i j : Nat) (h : i ≠ j) (a : String) :
    (l.set i a).getD j "" = l.getD j "" := by
  simp [List.getD, List.getElem?_set_ne h]

theorem swapL_perm (l : List String) (i j : Nat) (hi : i < l.length) (hj : j < l.length) :
    (swapL l i j).Perm l := by
  rw [List.perm_iff_count]
  intro x
  show List.count x ((l.set i (l.getD j "")).set j (l.getD i "")) = List.count x l
  have hjs : j < (l.set i (l.getD j "")).length := by simpa using hj
  have E1 := count_set_getD (l.set i (l.getD j "")) j hjs (l.getD i "") x
  have E2 := count_set_getD l i hi (l.getD j "") x
  by_cases hij : i = j
  · subst hij
    rw [getD_set_self l i hi] at E1
    omega
  · rw [getD_set_ne l i j hij] at E1
    omega

theorem randbelowAux_lt (n k : Nat) (hn : 0 < n) :
    ∀ (f : Nat) (st : MTState), (randbelowAux n k f st).1 < n := by
  intro f
  induction f with
  | zero => intro st; simp only [randbelowAux]; exact hn
  | succ m ih =>
    intro st
    unfold randbelowAux
    by_cases h : (getrandbits st k).1 < n
    · simp only [if_pos h]
      exact h
    · simpa [h] using ih _

theorem randbelow_lt (st : MTState) (n : Nat) (hn : 0 < n) :
    (randbelow st n).1 < n := by
  unfold randbelow
  rw [if_neg (Nat.pos_iff_ne_zero.mp hn)]
  exact randbelowAux_lt n _ hn _ _

theorem shuffleAux_perm :
    ∀ (m : Nat) (st : MTState) (l : List String), m < l.length →
      ((shuffleAux m st l).1).Perm l := by
  intro m
  induction m with
  | zero => intro st l _; simp [shuffleAux]
  | succ i ih =>
    intro st l hm
    unfold shuffleAux
    have hj : (randbelow st (i + 2)).1 < i + 2 := randbelow_lt st (i + 2) (by omega)
    have hperm : (swapL l (i + 1) (randbelow st (i + 2)).1).Perm l :=
      swapL_perm l (i + 1) _ hm (by omega)
    have hlen : i < (swapL l (i + 1) (randbelow st (i + 2)).1).length := by
      rw [swapL_length]; omega
    exact (ih _ _ hlen).trans hperm

theorem pyShuffle_perm (st : MTState) (l : List String) : (pyShuffle st l).Perm l := by
  unfold pyShuffle
  match l with
  | [] => simp [shuffleAux]
  | c :: t =>
    exact shuffleAux_perm _ st (c :: t) (by simp)

theorem pyShuffle_length (st : MTState) (l : List String) :
    (pyShuffle st l).length = l.length :=
  (pyShuffle_perm st l).length_eq

theorem pick_length (seed : Nat) (options : List String) (k : Nat) :
    (pick_deterministic seed options k).length = min k options.length := by
  show ((pyShuffle (mtInit seed) options).take
    (min k (pyShuffle (mtInit seed) options).length)).length = min k options.length
  rw [List.length_take, pyShuffle_length]
  omega

theorem pick_perm_of_le (seed : Nat) (options : List String) (k : Nat)
    (h : options.length ≤ k) :
    (pick_deterministic seed options k).Perm options := by
  show ((pyShuffle (mtInit seed) options).take
    (min k (pyShuffle (mtInit seed) options).length)).Perm options
  rw [pyShuffle_length, Nat.min_eq_right h,
    List.take_of_length_le (by rw [pyShuffle_length])]
  exact pyShuffle_perm _ _

/-! ## Claim theorems -/

/-- C1: `identify_primary_bottleneck` is a total function evaluating its six
rules as an ordered decision list, first match wins: every diagnostic
record yields one of the six fixed labels, and a record with
`hold_rate = 4`, `completion_rate = 3`, `hook_rate = 40`, `ctr = 0.3`
(satisfying both rule 1 and rule 2) yields rule 1's label, not rule 2's. -/
theorem bottleneck_total_ordered_decision_list :
    (∀ d : Diagnostics,
      identify_primary_bottleneck d = bottleneckLabel1 ∨
      identify_primary_bottleneck d = bottleneckLabel2 ∨
      identify_primary_bottleneck d = bottleneckLabel3 ∨
      identify_primary_bottleneck d = bottleneckLabel4 ∨
      identify_primary_bottleneck d = bottleneckLabel5 ∨
      identify_primary_bottleneck d = bottleneckLabel6) ∧
    (∀ d : Diagnostics, d.hold_rate_pct = 4 → d.completion_rate_pct = 3 →
      d.hook_rate_pct = 40 → d.ctr_pct = 0.3 →
      identify_primary_bottleneck d = bottleneckLabel1 ∧
      identify_primary_bottleneck d ≠ bottleneckLabel2) := by
  constructor
  · intro d
    unfold identify_primary_bottleneck
    split_ifs <;> tauto
  · intro d h1 h2 h3 h4
    have hcond : d.hold_rate_pct < 6 ∧ d.completion_rate_pct < 5 := by
      rw [h1, h2]; norm_num
    refine ⟨?_, ?_⟩ <;> unfold identify_primary_bottleneck <;> rw [if_pos hcond]
    decide

/-- Witness for C1: the concrete record of the claim fires rule 1. -/
theorem bottleneck_total_ordered_decision_list_witness :
    identify_primary_bottleneck ⟨0, 0, 0, 0, 0, 0, 0.3, 0, 40, 4, 3⟩ = bottleneckLabel1 ∧
    identify_primary_bottleneck ⟨0, 0, 0, 0, 0, 0, 0.3, 0, 40, 4, 3⟩ ≠ bottleneckLabel2 :=
  bottleneck_total_ordered_decision_list.2 ⟨0, 0, 0, 0, 0, 0, 0.3, 0, 40, 4, 3⟩
    rfl rfl rfl rfl

/-- C2: the selection pipeline (`seed_from_text` then `pick_deterministic`)
is deterministic in the ad name: equal names, equal catalog and equal `k`
give identical ordered suggestion lists. -/
theorem selection_deterministic (n₁ n₂ : String) (catalog : List String) (k : Nat)
    (h : n₁ = n₂) :
    pick_deterministic (seed_from_text n₁) catalog k =
      pick_deterministic (seed_from_text n₂) catalog k := by
  rw [h]

/-- Witness for C2 at the ad name `"Ad A"` and the real catalog. -/
theorem selection_deterministic_witness :
    pick_deterministic (seed_from_text "Ad A") generate_perfume_specific_suggestions 5 =
      pick_deterministic (seed_from_text "Ad A") generate_perfume_specific_suggestions 5 :=
  selection_deterministic "Ad A" "Ad A" generate_perfume_specific_suggestions 5 rfl

/-- C3: when ROAS is not supplied, the validator derives
`round(revenue / spend, 2)` for positive spend and `0.0` for zero spend. -/
theorem roas_derivation (spend revenue : ℚ) (hs : 0 ≤ spend) (_hr : 0 ≤ revenue) :
    (0 < spend → calculate_roas none spend revenue = pyRound2 (revenue / spend)) ∧
    (spend = 0 → calculate_roas none spend revenue = 0) := by
  constructor
  · intro h
    simp [calculate_roas, h]
  · intro h
    subst h
    simp [calculate_roas]

/-- Witness for C3 at spend 4, revenue 10 and at spend 0, revenue 7. -/
theorem roas_derivation_witness :
    calculate_roas none 4 10 = pyRound2 (10 / 4) ∧ calculate_roas none 0 7 = 0 :=
  ⟨(roas_derivation 4 10 (by norm_num) (by norm_num)).1 (by norm_num),
   (roas_derivation 0 7 (by norm_num) (by norm_num)).2 rfl⟩

/-- C4: for every seed, catalog and `k ≥ 0` (the `Nat` domain),
`pick_deterministic` returns exactly `min k |catalog|` elements forming a
prefix of a permutation of the catalog; in particular `k ≥ |catalog|`
returns the whole catalog (as a permutation, hence with no element
repeated more often than it occurs). -/
theorem pick_returns_prefix_of_permutation (seed : Nat) (catalog : List String) (k : Nat) :
    ∃ p : List String, catalog.Perm p ∧
      pick_deterministic seed catalog k <+: p ∧
      (pick_deterministic seed catalog k).length = min k catalog.length ∧
      (catalog.length ≤ k → (pick_deterministic seed catalog k).Perm catalog) := by
  refine ⟨pyShuffle (mtInit seed) catalog, (pyShuffle_perm _ _).symm, ?_,
    pick_length seed catalog k, fun h => pick_perm_of_le seed catalog k h⟩
  exact ⟨(pyShuffle (mtInit seed) catalog).drop
      (min k (pyShuffle (mtInit seed) catalog).length),
    List.take_append_drop _ _⟩

/-- Witness for C4: with `k = 3` exceeding the 2-element catalog the whole
catalog comes back as a permutation. -/
theorem pick_returns_prefix_of_permutation_witness :
    (pick_deterministic 0 ["alpha", "beta"] 3).Perm ["alpha", "beta"] := by
  obtain ⟨p, _, _, _, h4⟩ := pick_returns_prefix_of_permutation 0 ["alpha", "beta"] 3
  exact h4 (by norm_num)

/-- C6 counterexample: called without `k`, `pick_deterministic` does not
return 5 suggestions from the 10-entry catalog (the declared default is 4,
not 5). -/
theorem pick_default_k_counterexample :
    (pick_deterministic 0 generate_perfume_specific_suggestions).length ≠ 5 := by
  rw [pick_length]
  norm_num [generate_perfume_specific_suggestions]

/-- C6 amended: the default of the `k` parameter of `pick_deterministic` is
4 (so an unsupplied `k` yields 4 of the 10 catalog entries); the insight
builder does not rely on the default — it passes `k = 5` explicitly. -/
theorem pick_default_k_is_four :
    (∀ (seed : Nat) (options : List String),
      pick_deterministic seed options = pick_deterministic seed options 4) ∧
    (∀ seed : Nat,
      (pick_deterministic seed generate_perfume_specific_suggestions).length = 4) ∧
    (∀ p : AdPayload, build_insight_suggestions p =
      annotateFirst (contextParts p.product p.platform)
        (pick_deterministic (seed_from_text p.ad_name)
          generate_perfume_specific_suggestions 5)) := by
  refine ⟨fun _ _ => rfl, fun seed => ?_, fun _ => rfl⟩
  rw [pick_length]
  norm_num [generate_perfume_specific_suggestions]

/-- C5 counterexample: `"Gift Box"` matches no subcategory keyword, yet the
subcategory is not `"Standard"` (the classifier returns `"Unisex"`). -/
theorem subcategory_standard_counterexample :
    noSubcatKeyword "Gift Box" = true ∧
    (categorize_product "Gift Box").subcategory = "Unisex" ∧
    (categorize_product "Gift Box").subcategory ≠ "Standard" := by
  refine ⟨by decide, by decide, by decide⟩

/-- C5 amended: a product name matching no subcategory keyword gets the
subcategory `"Unisex"` (the target-audience rule defaults to `"Unisex"`,
so the parts list is never empty and the `"Standard"` fallback is
unreachable). -/
theorem subcategory_no_keyword_is_unisex (name : String)
    (h : noSubcatKeyword name = true) :
    (categorize_product name).subcategory = "Unisex" := by
  simp only [noSubcatKeyword, Bool.not_eq_true', Bool.or_eq_false_iff] at h
  obtain ⟨⟨⟨⟨⟨⟨⟨⟨⟨⟨⟨⟨⟨⟨h1, h2⟩, h3⟩, h4⟩, h5⟩, h6⟩, h7⟩, h8⟩, h9⟩, h10⟩,
    h11⟩, h12⟩, h13⟩, h14⟩, h15⟩ := h
  simp [categorize_product, h1, h2, h3, h4, h5, h6, h7, h8, h9, h10, h11, h12,
    h13, h14, h15, String.intercalate, String.intercalate.go]

/-- Witness for the amended C5 at the concrete name `"Gift Box"`. -/
theorem subcategory_no_keyword_is_unisex_witness :
    (categorize_product "Gift Box").subcategory = "Unisex" :=
  subcategory_no_keyword_is_unisex "Gift Box" (by decide)

/-- C9: no product name is ever categorized `"Perfumes - Perfume Oil"`:
that rule needs the substring `"perfume"`, which already triggers the
earlier Eau-de-Parfum rule. -/
theorem perfume_oil_category_unreachable (name : String) :
    (categorize_product name).category ≠ "Perfumes - Perfume Oil" := by
  simp only [categorize_product]
  split_ifs with h1 h2 h3 h4 h5 h6
  · decide
  · decide
  · exfalso
    rw [Bool.and_eq_true] at h3
    simp only [Bool.or_eq_true, not_or] at h1
    exact h1.2 h3.2
  · decide
  · decide
  · decide
  · decide

/-- Witness for C9 at a name containing both `"perfume"` and `"oil"`. -/
theorem perfume_oil_category_unreachable_witness :
    (categorize_product "Kenaz Perfume Oil").category ≠ "Perfumes - Perfume Oil" :=
  perfume_oil_category_unreachable "Kenaz Perfume Oil"

/-- C8: the language extractor maps each sentinel to `"NA"` and a nonempty
list to its first element's text before the first colon, stripped of
surrounding whitespace (`["Hindi: 70%", "English: 30%"]` gives
`"Hindi"`); the written axis behaves the same with its own sentinel. -/
theorem language_extractor_sentinel_and_first_element :
    (∀ w : Option PyStrField,
      (extract_language_from_analysis
        ⟨some (.str "No discernible spoken dialogue or narration detected"),
          w⟩).spoken_language = "NA") ∧
    (∀ (x : String) (xs : List String) (w : Option PyStrField),
      (extract_language_from_analysis ⟨some (.list (x :: xs)), w⟩).spoken_language =
        pyStrip (beforeColon x)) ∧
    ((extract_language_from_analysis
        ⟨some (.list ["Hindi: 70%", "English: 30%"]), none⟩).spoken_language = "Hindi") ∧
    (∀ sp : Option PyStrField,
      (extract_language_from_analysis
        ⟨sp, some (.str "No significant, clearly discernible on-screen text detected")⟩).written_language = "NA") ∧
    (∀ (sp : Option PyStrField) (x : String) (xs : List String),
      (extract_language_from_analysis ⟨sp, some (.list (x :: xs))⟩).written_language =
        pyStrip (beforeColon x)) :=
  ⟨fun _ => rfl, fun _ _ _ => rfl, by decide, fun _ => rfl, fun _ _ _ => rfl⟩

/-- C10: a string field that is not the sentinel comes back verbatim as the
extracted language, and a missing field yields `"NA"` (on both axes). -/
theorem language_extractor_non_sentinel_string_verbatim :
    (∀ (s : String) (w : Option PyStrField), pyIn "No discernible" s = false →
      (extract_language_from_analysis ⟨some (.str s), w⟩).spoken_language = s) ∧
    (∀ w : Option PyStrField,
      (extract_language_from_analysis ⟨none, w⟩).spoken_language = "NA") ∧
    (∀ (sp : Option PyStrField) (t : String), pyIn "No significant" t = false →
      (extract_language_from_analysis ⟨sp, some (.str t)⟩).written_language = t) ∧
    (∀ sp : Option PyStrField,
      (extract_language_from_analysis ⟨sp, none⟩).written_language = "NA") := by
  refine ⟨fun s w h => ?_, fun _ => rfl, fun sp t h => ?_, fun _ => rfl⟩
  · simp [extract_language_from_analysis, extractAxis, h]
  · simp [extract_language_from_analysis, extractAxis, h]

/-- Witness for C10 at the non-sentinel string `"Hinglish voiceover"`. -/
theorem language_extractor_non_sentinel_string_verbatim_witness :
    (extract_language_from_analysis
      ⟨some (.str "Hinglish voiceover"), none⟩).spoken_language = "Hinglish voiceover" :=
  language_extractor_non_sentinel_string_verbatim.1 "Hinglish voiceover" none (by decide)

/-! ## Context-annotation lemmas -/

theorem annotateFirst_length (ctx l : List String) :
    (annotateFirst ctx l).length = l.length := by
  unfold annotateFirst
  split_ifs <;> simp

theorem annotateFirst_getD_tail (ctx l : List String) (i : Nat) (hi : 1 ≤ i) :
    (annotateFirst ctx l).getD i "" = l.getD i "" := by
  unfold annotateFirst
  split_ifs
  · rfl
  · exact getD_set_ne l 0 i (by omega) _

theorem annotateFirst_head (ctx l : List String) (hc : ctx.isEmpty = false)
    (hl : 0 < l.length) :
    (annotateFirst ctx l).getD 0 "" =
      l.getD 0 "" ++ " [Context: " ++ String.intercalate ", " ctx ++ "]" := by
  unfold annotateFirst
  rw [if_neg (by simp [hc])]
  exact getD_set_self l 0 hl _

theorem strFuseLit (a b c r : String) (h : a ++ b = c) : a ++ (b ++ r) = c ++ r := by
  rw [← String.append_assoc, h]

/-- C7: in the insight result, when product and/or platform are present
(Python-truthy) exactly the first selected suggestion gets the bracketed
context suffix — with the absent part omitted — later suggestions are
never modified, and with both absent nothing is modified. -/
theorem context_annotation_first_suggestion_only (p : AdPayload) :
    (build_insight_suggestions p).length = (selected_suggestions p).length ∧
    (∀ i, 1 ≤ i → (build_insight_suggestions p).getD i "" =
      (selected_suggestions p).getD i "") ∧
    (pyTruthy p.product = false → pyTruthy p.platform = false →
      build_insight_suggestions p = selected_suggestions p) ∧
    (∀ pr, p.product = some pr → pyTruthy p.product = true →
      pyTruthy p.platform = false →
      (build_insight_suggestions p).getD 0 "" =
        (selected_suggestions p).getD 0 "" ++ " [Context: Product: " ++ pr ++ "]") ∧
    (∀ pl, p.platform = some pl → pyTruthy p.product = false →
      pyTruthy p.platform = true →
      (build_insight_suggestions p).getD 0 "" =
        (selected_suggestions p).getD 0 "" ++ " [Context: Platform: " ++ pl ++ "]") ∧
    (∀ pr pl, p.product = some pr → p.platform = some pl →
      pyTruthy p.product = true → pyTruthy p.platform = true →
      (build_insight_suggestions p).getD 0 "" =
        (selected_suggestions p).getD 0 "" ++ " [Context: Product: " ++ pr ++
          ", Platform: " ++ pl ++ "]") := by
  have hlen5 : (selected_suggestions p).length = 5 := by
    rw [selected_suggestions, pick_length]
    norm_num [generate_perfume_specific_suggestions]
  have hpos : 0 < (selected_suggestions p).length := by omega
  refine ⟨annotateFirst_length _ _, fun i hi => annotateFirst_getD_tail _ _ i hi,
    ?_, ?_, ?_, ?_⟩
  · intro hp hpl
    show annotateFirst (contextParts p.product p.platform) (selected_suggestions p) =
      selected_suggestions p
    simp [contextParts, hp, hpl, annotateFirst]
  · intro pr hpr hp hpl
    rw [hpr] at hp
    have hctx : contextParts p.product p.platform = ["Product: " ++ pr] := by
      simp [contextParts, hpr, hp, hpl]
    show (annotateFirst (contextParts p.product p.platform)
      (selected_suggestions p)).getD 0 "" = _
    rw [hctx, annotateFirst_head _ _ (by simp) hpos,
      show String.intercalate ", " ["Product: " ++ pr] = "Product: " ++ pr from by
        simp [String.intercalate, String.intercalate.go]]
    simp only [String.append_assoc]
    rw [strFuseLit " [Context: " "Product: " " [Context: Product: " _ rfl]
  · intro pl hpl' hp hpl
    rw [hpl'] at hpl
    have hctx : contextParts p.product p.platform = ["Platform: " ++ pl] := by
      simp [contextParts, hpl', hp, hpl]
    show (annotateFirst (contextParts p.product p.platform)
      (selected_suggestions p)).getD 0 "" = _
    rw [hctx, annotateFirst_head _ _ (by simp) hpos,
      show String.intercalate ", " ["Platform: " ++ pl] = "Platform: " ++ pl from by
        simp [String.intercalate, String.intercalate.go]]
    simp only [String.append_assoc]
    rw [strFuseLit " [Context: " "Platform: " " [Context: Platform: " _ rfl]
  · intro pr pl hpr hpl' hp hpl
    rw [hpr] at hp
    rw [hpl'] at hpl
    have hctx : contextParts p.product p.platform =
        ["Product: " ++ pr, "Platform: " ++ pl] := by
      simp [contextParts, hpr, hpl', hp, hpl]
    show (annotateFirst (contextParts p.product p.platform)
      (selected_suggestions p)).getD 0 "" = _
    rw [hctx, annotateFirst_head _ _ (by simp) hpos,
      show String.intercalate ", " ["Product: " ++ pr, "Platform: " ++ pl] =
          "Product: " ++ pr ++ ", " ++ ("Platform: " ++ pl) from by
        simp [String.intercalate, String.intercalate.go]]
    simp only [String.append_assoc]
    rw [strFuseLit " [Context: " "Product: " " [Context: Product: " _ rfl,
      strFuseLit ", " "Platform: " ", Platform: " _ rfl]

set_option maxRecDepth 4096 in
/-- Witness for C7: with product `"Kenaz Oud"` and platform `"Meta"` the
first suggestion carries the full context suffix. -/
theorem context_annotation_first_suggestion_only_witness :
    (build_insight_suggestions
        { ad_name := "Diwali Push", product := some "Kenaz Oud",
          platform := some "Meta" }).getD 0 "" =
      (selected_suggestions
        { ad_name := "Diwali Push", product := some "Kenaz Oud",
          platform := some "Meta" }).getD 0 "" ++
        " [Context: Product: " ++ "Kenaz Oud" ++ ", Platform: " ++ "Meta" ++ "]" :=
  (context_annotation_first_suggestion_only
    { ad_name := "Diwali Push", product := some "Kenaz Oud",
      platform := some "Meta" }).2.2.2.2.2 "Kenaz Oud" "Meta" rfl rfl rfl rfl
end Kenaz
